import Mathlib

/-
Verification of the optimization driver in src/src/optimizer.cpp (mma4py).

The embedding uses rationals for the C double scalars (every operation the
claims touch is exact order/field arithmetic: comparisons, max, min, sums),
lists for the flat numeric buffers, and an explicit call-event trace for the
external collaborators (problem evaluator, MMA solver, PETSc vector layer),
which the spec itself treats as opaque interfaces.  PETSc error codes are
Nat, 0 meaning success, exactly as PetscErrorCode is used by the source: a
call wrapped in PetscCall propagates a nonzero code by returning early, an
unwrapped call drops its code on the floor.
-/

namespace Mma4py

/-! ## Distributed vector binding (optimizer.cpp lines 3-34)

The process address space is a flat map from addresses to scalars together
with an allocation frontier; a buffer is named by its base address.  The
PETSc calls VecCreate / VecSetSizes / VecSetType / VecPlaceArray inside
allocate_petsc_vec and bind_petsc_vec_to_array are external library
primitives, modelled by their documented net effect: allocate gives the
vector fresh zero-initialized local storage, bind makes the user buffer
itself the local storage (VecPlaceArray), touching neither the memory nor
the allocation frontier. -/

/-- The mutable world: memory contents and the next free address. -/
structure World where
  mem : Nat → ℚ
  next : Nat

/-- A PETSc vector object: global size, local size, and the address of its
local storage array. -/
structure PetscVecObj where
  gsize : Nat
  lsize : Nat
  arr : Nat
deriving DecidableEq

/-- optimizer.cpp lines 3-15: create an MPI vector with freshly owned,
zero-initialized local storage of the requested local size. -/
def allocate_petsc_vec (w : World) (gsize lsize : Nat) : PetscVecObj × World :=
  (⟨gsize, lsize, w.next⟩,
   ⟨fun a => if w.next ≤ a ∧ a < w.next + lsize then 0 else w.mem a, w.next + lsize⟩)

/-- optimizer.cpp lines 17-34: create an MPI vector and place the caller's
buffer (base address data) as its local storage.  No memory is written and
no storage is allocated: the world is returned unchanged. -/
def bind_petsc_vec_to_array (w : World) (gsize lsize : Nat) (data : Nat) :
    PetscVecObj × World :=
  (⟨gsize, lsize, data⟩, w)

/-- Read local entry i of a vector through its local-storage accessor
(VecGetArray followed by a read). -/
def vecGetLocal (w : World) (v : PetscVecObj) (i : Nat) : ℚ :=
  w.mem (v.arr + i)

/-- Write local entry i of a vector through its local-storage accessor. -/
def vecSetLocal (w : World) (v : PetscVecObj) (i : Nat) (q : ℚ) : World :=
  ⟨fun a => if a = v.arr + i then q else w.mem a, w.next⟩

/-- Read entry i of the flat buffer with base address base. -/
def bufRead (w : World) (base i : Nat) : ℚ :=
  w.mem (base + i)

/-- Write entry i of the flat buffer with base address base. -/
def bufWrite (w : World) (base i : Nat) (q : ℚ) : World :=
  ⟨fun a => if a = base + i then q else w.mem a, w.next⟩

/-! ## Maximum constraint violation (optimizer.cpp lines 152-159) -/

/-- optimizer.cpp lines 152-159: infeas starts at 0.0 and each constraint
value larger than the running value replaces it. -/
def computeInfeas (cons : List ℚ) : ℚ :=
  cons.foldl (fun infeas c => if infeas < c then c else infeas) 0

/-! ## Move-limit box -/

/-- optimizer.cpp line 102: the hard-coded move-limit fraction 0.2. -/
def movelim : ℚ := 1 / 5

/-- Lower move limit of one variable: max(lb, x - f*(ub - lb)). -/
def movelimLB (l u xi f : ℚ) : ℚ := max l (xi - f * (u - l))

/-- Upper move limit of one variable: min(ub, x + f*(ub - lb)). -/
def movelimUB (l u xi f : ℚ) : ℚ := min u (xi + f * (u - l))

/-- Pointwise combination of three lists, truncating at the shortest. -/
def zipWith3 (f : ℚ → ℚ → ℚ → ℚ) : List ℚ → List ℚ → List ℚ → List ℚ
  | a :: as, b :: bs, c :: cs => f a b c :: zipWith3 f as bs cs
  | _, _, _ => []

/-- Modelled from the spec: MMA::SetOuterMovelimit lives in the repository's
mma.cpp, which is not among the provided sources; spec section 4.4 gives its
contract: for each local variable i, lb_temp[i] = max(lb[i], x[i] -
f*(ub[i]-lb[i])) and ub_temp[i] = min(ub[i], x[i] + f*(ub[i]-lb[i])). -/
def setOuterMovelimit (lb ub x : List ℚ) (f : ℚ) : List ℚ × List ℚ :=
  (zipWith3 (fun l u xi => movelimLB l u xi f) lb ub x,
   zipWith3 (fun l u xi => movelimUB l u xi f) lb ub x)

/-! ## The optimizer driver (optimizer.cpp lines 95-177)

The driver's aliased buffers are carried as lists; the external calls the
loop makes are recorded as events so that claims about which collaborator
is invoked when (and with which buffer contents) can be stated.  The
problem evaluator and the MMA solver are opaque parameters, as in the spec;
the PETSc calls the source wraps in PetscCall can fail, which is modelled
by injected error codes (0 = success) for SetOuterMovelimit and VecNorm,
the two wrapped in-loop calls whose failure the claims are about. -/

/-- VecNorm(x, NORM_1, ...): the l1 norm of the design vector. -/
def l1norm (x : List ℚ) : ℚ := (x.map (fun t => |t|)).sum

/-- The driver's aliased buffer set (numpy-backed members np_x, np_lb,
np_ub, np_g, np_cons, np_gcon of the Optimizer). -/
structure Bufs where
  x : List ℚ
  lb : List ℚ
  ub : List ℚ
  g : List ℚ
  cons : List ℚ
  gcon : List (List ℚ)
deriving DecidableEq

/-- One external call made by optimize, with the argument values that
matter to the claims. -/
inductive Event
  | callGetVarsAndBounds
  | allocTemp
  | constructMMA (x : List ℚ)
  | callEvalObjCon (x : List ℚ)
  | callEvalObjConGrad (x : List ℚ)
  | callSetMovelimit (x : List ℚ)
  | callUpdate (x : List ℚ)
  | callKKT (x cons : List ℚ)
  | freeTemp
deriving DecidableEq

/-- One line of the log stream: the column-header line, or the data record
of one iteration (iter, obj, KKT_l2, KKT_linf, |x|_1, infeas). -/
inductive LogLine
  | header
  | record (iter : Nat) (obj kktl2 kktlinf xl1 infeas : ℚ)
deriving DecidableEq

/-- The environment optimize runs against: the problem evaluator data, the
MMA solver's update and residual operations (each returning a PetscErrorCode
together with its numeric result, since the source discards those codes),
and the injected failure codes of the PetscCall-wrapped in-loop calls. -/
structure Env where
  initX : List ℚ
  initLb : List ℚ
  initUb : List ℚ
  evalObjCon : List ℚ → ℚ × List ℚ
  evalObjConGrad : List ℚ → List ℚ × List (List ℚ)
  update : List ℚ → List ℚ → List ℚ → List (List ℚ) → List ℚ → List ℚ → Nat × List ℚ
  kkt : List ℚ → List ℚ → List ℚ → List (List ℚ) → List ℚ → List ℚ → Nat × ℚ × ℚ
  mlFail : Nat → Nat
  normFail : Nat → Nat

/-- Result of a run: the returned PetscErrorCode, the buffer set, the log
lines written, and the external calls made. -/
structure RunRes where
  code : Nat
  bufs : Bufs
  log : List LogLine
  events : List Event
deriving DecidableEq

/-- optimizer.cpp lines 130-171, the while loop, by remaining iteration
count.  Each iteration: evalObjCon and evalObjConGrad write obj, cons, g,
gcon at the current x; SetOuterMovelimit (wrapped in PetscCall: a nonzero
code returns it at once) recomputes the temporary bounds; mma.Update
mutates x in place, its returned code unchecked; mma.KKTresidual reads the
updated x with the cons evaluated before the update, its code unchecked;
VecNorm (wrapped in PetscCall) takes the l1 norm of the updated x; the
header is printed when iter mod 10 = 0 and one record is always printed. -/
def optLoop (env : Env) : Nat → Bufs → List ℚ → List ℚ → Nat → RunRes
  | 0, s, _, _, _ => ⟨0, s, [], []⟩
  | r + 1, s, _, _, iter =>
    let oc := env.evalObjCon s.x
    let gg := env.evalObjConGrad s.x
    let s1 : Bufs := ⟨s.x, s.lb, s.ub, gg.1, oc.2, gg.2⟩
    let evs0 := [Event.callEvalObjCon s.x, Event.callEvalObjConGrad s.x,
      Event.callSetMovelimit s.x]
    if env.mlFail iter = 0 then
      let ml := setOuterMovelimit s.lb s.ub s.x movelim
      let ux := env.update s.x gg.1 oc.2 gg.2 ml.1 ml.2
      let s2 : Bufs := ⟨ux.2, s.lb, s.ub, gg.1, oc.2, gg.2⟩
      let kk := env.kkt ux.2 gg.1 oc.2 gg.2 ml.1 ml.2
      let evs1 := evs0 ++ [Event.callUpdate s.x, Event.callKKT ux.2 oc.2]
      if env.normFail iter = 0 then
        let lines := (if iter % 10 = 0 then [LogLine.header] else []) ++
          [LogLine.record iter oc.1 kk.2.1 kk.2.2 (l1norm ux.2) (computeInfeas oc.2)]
        let rest := optLoop env r s2 ml.1 ml.2 (iter + 1)
        ⟨rest.code, rest.bufs, lines ++ rest.log, evs1 ++ rest.events⟩
      else
        ⟨env.normFail iter, s2, [], evs1⟩
    else
      ⟨env.mlFail iter, s1, [], evs0⟩

/-- optimizer.cpp lines 95-177, Optimizer::optimize(niter): getVarsAndBounds
overwrites x, lb, ub with the problem's initial values; lb_temp and ub_temp
are allocated and initialized to lb and ub; the MMA solver is constructed
seeded with x; the loop runs; only when the loop finishes normally are the
two temporaries destroyed and 0 returned, a nonzero code from inside the
loop returns early past the VecDestroy calls. -/
def optimize (env : Env) (s0 : Bufs) (niter : Nat) : RunRes :=
  let s : Bufs := ⟨env.initX, env.initLb, env.initUb, s0.g, s0.cons, s0.gcon⟩
  let pre := [Event.callGetVarsAndBounds, Event.allocTemp, Event.allocTemp,
    Event.constructMMA env.initX]
  let r := optLoop env niter s env.initLb env.initUb 0
  if r.code = 0 then
    ⟨0, r.bufs, r.log, pre ++ r.events ++ [Event.freeTemp, Event.freeTemp]⟩
  else
    ⟨r.code, r.bufs, r.log, pre ++ r.events⟩

/-- Calls belonging to the Problem Evaluator interface of spec section 6. -/
def isEvaluatorCall : Event → Bool
  | Event.callGetVarsAndBounds => true
  | Event.callEvalObjCon _ => true
  | Event.callEvalObjConGrad _ => true
  | _ => false

/-- The freeTemp events (VecDestroy of lb_temp / ub_temp). -/
def isFreeTemp : Event → Bool
  | Event.freeTemp => true
  | _ => false

/-- The allocTemp events (allocate_petsc_vec of lb_temp / ub_temp). -/
def isAllocTemp : Event → Bool
  | Event.allocTemp => true
  | _ => false

/-- Data records of the log (everything but header lines). -/
def isRecordLine : LogLine → Bool
  | LogLine.record _ _ _ _ _ _ => true
  | _ => false

/-- The infeas column of a log line (0 for the header). -/
def infeasOf : LogLine → ℚ
  | LogLine.header => 0
  | LogLine.record _ _ _ _ _ i => i

/-! ## Reference iterate sequence of a failure-free run -/

/-- The design iterates of a failure-free run: x after k solver updates,
starting from the problem's initial design. -/
def xSeq (env : Env) : Nat → List ℚ
  | 0 => env.initX
  | k + 1 =>
    let x := xSeq env k
    let oc := env.evalObjCon x
    let gg := env.evalObjConGrad x
    let ml := setOuterMovelimit env.initLb env.initUb x movelim
    (env.update x gg.1 oc.2 gg.2 ml.1 ml.2).2

/-- The data record iteration k of a failure-free run writes: objective and
constraints evaluated at the pre-update iterate, KKT residual and l1 norm
at the post-update iterate, infeasibility from the pre-update constraint
values. -/
def recordAt (env : Env) (k : Nat) : LogLine :=
  let x := xSeq env k
  let oc := env.evalObjCon x
  let gg := env.evalObjConGrad x
  let ml := setOuterMovelimit env.initLb env.initUb x movelim
  let ux := env.update x gg.1 oc.2 gg.2 ml.1 ml.2
  let kk := env.kkt ux.2 gg.1 oc.2 gg.2 ml.1 ml.2
  LogLine.record k oc.1 kk.2.1 kk.2.2 (l1norm ux.2) (computeInfeas oc.2)

/-- Objective value evaluated at the iteration-k (pre-update) iterate. -/
def objAt (env : Env) (k : Nat) : ℚ := (env.evalObjCon (xSeq env k)).1

/-- Constraint values evaluated at the iteration-k (pre-update) iterate. -/
def consAt (env : Env) (k : Nat) : List ℚ := (env.evalObjCon (xSeq env k)).2

/-- Objective gradient evaluated at the iteration-k (pre-update) iterate. -/
def gradAt (env : Env) (k : Nat) : List ℚ := (env.evalObjConGrad (xSeq env k)).1

/-- Constraint Jacobian evaluated at the iteration-k (pre-update) iterate. -/
def jacAt (env : Env) (k : Nat) : List (List ℚ) := (env.evalObjConGrad (xSeq env k)).2

/-- Move-limit box of iteration k, from the permanent bounds and the
pre-update iterate. -/
def mlAt (env : Env) (k : Nat) : List ℚ × List ℚ :=
  setOuterMovelimit env.initLb env.initUb (xSeq env k) movelim

/-- KKT residual pair of iteration k: computed at the post-update iterate
with the constraint values of the pre-update iterate. -/
def kktAt (env : Env) (k : Nat) : ℚ × ℚ :=
  (env.kkt (xSeq env (k + 1)) (gradAt env k) (consAt env k) (jacAt env k)
    (mlAt env k).1 (mlAt env k).2).2

/-- env with the error code of the solver update replaced by an arbitrary
function of the same arguments, the numeric result kept: since optimize
discards that code, the run should not depend on it. -/
def withUpdateCode (env : Env)
    (ec : List ℚ → List ℚ → List ℚ → List (List ℚ) → List ℚ → List ℚ → Nat) : Env :=
  { env with
    update := fun x g c gc lt ut => (ec x g c gc lt ut, (env.update x g c gc lt ut).2) }

/-- The caller-observable outcome a design-continuation claim is about:
returned code, final design buffer contents, log, external calls. -/
def designView (res : RunRes) : Nat × List ℚ × List LogLine × List Event :=
  (res.code, res.bufs.x, res.log, res.events)

/-! ## Log record format (optimizer.cpp lines 166-167) -/

/-- A C printf conversion of the form width.precision with conversion e. -/
structure ESpec where
  width : Nat
  prec : Nat
deriving DecidableEq

/-- The format of each numeric column of a data record in the source,
percent 20.10e: field width 20, precision 10, e conversion. -/
def recordFmt : ESpec := ⟨20, 10⟩

/-- Number of significant digits an e conversion prints: per the C standard
there is exactly one digit before the decimal point and precision digits
after it. -/
def sigDigitsE (prec : Nat) : Nat := prec + 1

/-! ## Optimizer construction (optimizer.cpp lines 36-75) -/

/-- The constructor state the log-file claim is about: the stored result of
the single fopen call (none models a NULL FILE pointer). -/
structure OptimizerObj where
  fp : Option Unit
deriving DecidableEq

/-- optimizer.cpp lines 36-39: the constructor opens the log file once and
stores whatever fopen returned without checking it; the Except result
channel (how a C++ constructor would surface an error) is never used. -/
def optimizerCtor (fopenResult : Option Unit) : Except Nat OptimizerObj :=
  Except.ok ⟨fopenResult⟩

/-! ## Concrete instances used by the counterexamples and witnesses -/

/-- A deterministic one-variable, one-constraint problem: the solver update
always moves the design to the point one and never reports an error. -/
def envC : Env where
  initX := [0]
  initLb := [0]
  initUb := [10]
  evalObjCon := fun _ => (0, [0])
  evalObjConGrad := fun _ => ([1], [[1]])
  update := fun _ _ _ _ _ _ => (0, [1])
  kkt := fun _ _ _ _ _ _ => (0, 0, 0)
  mlFail := fun _ => 0
  normFail := fun _ => 0

/-- A buffer state left over from earlier activity, with a design value the
problem's initial design differs from. -/
def s0C : Bufs := ⟨[5], [0], [0], [0], [0], [[0]]⟩

/-- envC with a solver update that always reports failure code 42 while
still moving the design to the point one. -/
def envU : Env :=
  { envC with update := fun _ _ _ _ _ _ => (42, [1]) }

/-- envC with SetOuterMovelimit failing with code 7 on every iteration. -/
def envF : Env :=
  { envC with mlFail := fun _ => 7 }

/-! ## Helper lemmas about the fold computing the maximum violation -/

theorem infeas_step_max (a c : ℚ) : (if a < c then c else a) = max a c := by
  rcases lt_or_ge a c with h | h
  · rw [if_pos h, max_eq_right h.le]
  · rw [if_neg (not_lt.mpr h), max_eq_left h]

theorem computeInfeas_eq_foldl_max (cons : List ℚ) :
    computeInfeas cons = cons.foldl max 0 := by
  unfold computeInfeas
  congr 1
  funext a c
  exact infeas_step_max a c

theorem le_foldl_max (cons : List ℚ) : ∀ a : ℚ, a ≤ cons.foldl max a := by
  induction cons with
  | nil => intro a; exact le_refl a
  | cons c cs ih =>
    intro a
    simp only [List.foldl_cons]
    exact le_trans (le_max_left a c) (ih (max a c))

theorem mem_le_foldl_max (cons : List ℚ) :
    ∀ (a c : ℚ), c ∈ cons → c ≤ cons.foldl max a := by
  induction cons with
  | nil => intro a c hc; cases hc
  | cons d ds ih =>
    intro a c hc
    simp only [List.foldl_cons]
    rcases List.mem_cons.mp hc with h | h
    · subst h
      exact le_trans (le_max_right a c) (le_foldl_max ds (max a c))
    · exact ih (max a d) c h

theorem foldl_max_map_nonneg (cons : List ℚ) :
    ∀ a : ℚ, 0 ≤ a →
      cons.foldl max a = (cons.map (fun c => max c 0)).foldl max a := by
  induction cons with
  | nil => intro a _; rfl
  | cons c cs ih =>
    intro a ha
    simp only [List.map_cons, List.foldl_cons]
    have h1 : max a (max c 0) = max a c := by
      rcases le_or_lt c 0 with h | h
      · rw [max_eq_right h, max_eq_left ha, max_eq_left (h.trans ha)]
      · rw [max_eq_left h.le]
    rw [h1]
    exact ih (max a c) (le_trans ha (le_max_left a c))

theorem foldl_max_nonpos (cons : List ℚ) (h : ∀ c ∈ cons, c ≤ 0) :
    cons.foldl max 0 = 0 := by
  induction cons with
  | nil => rfl
  | cons c cs ih =>
    simp only [List.foldl_cons]
    rw [max_eq_left (h c (List.mem_cons_self c cs))]
    exact ih (fun d hd => h d (List.mem_cons_of_mem c hd))

/-! ## Helper lemmas about the move-limit formula -/

theorem zipWith3_getD (f : ℚ → ℚ → ℚ → ℚ) :
    ∀ (as bs cs : List ℚ) (i : Nat), i < as.length → as.length = bs.length →
      bs.length = cs.length →
      (zipWith3 f as bs cs).getD i 0 = f (as.getD i 0) (bs.getD i 0) (cs.getD i 0) := by
  intro as
  induction as with
  | nil => intro bs cs i hi _ _; simp at hi
  | cons a as ih =>
    intro bs cs i hi h1 h2
    cases bs with
    | nil => simp at h1
    | cons b bs =>
      cases cs with
      | nil => simp at h2
      | cons c cs =>
        cases i with
        | zero => rfl
        | succ j =>
          simp only [zipWith3, List.getD_cons_succ]
          exact ih bs cs j (by simpa using hi) (by simpa using h1) (by simpa using h2)

/-! ## Helper lemmas about the optimize loop -/

theorem optLoop_no_temp_events (env : Env) :
    ∀ (r : Nat) (s : Bufs) (lbt ubt : List ℚ) (iter : Nat),
      (optLoop env r s lbt ubt iter).events.countP isAllocTemp = 0 ∧
      (optLoop env r s lbt ubt iter).events.countP isFreeTemp = 0 := by
  intro r
  induction r with
  | zero => intro s lbt ubt iter; exact ⟨rfl, rfl⟩
  | succ r ih =>
    intro s lbt ubt iter
    simp only [optLoop]
    split
    · split
      · constructor <;>
          simp [List.countP_append, List.countP_cons, isAllocTemp, isFreeTemp,
            (ih _ _ _ _).1, (ih _ _ _ _).2]
      · constructor <;> simp [List.countP_cons, isAllocTemp, isFreeTemp]
    · constructor <;> simp [List.countP_cons, isAllocTemp, isFreeTemp]

theorem withUpdateCode_update (env : Env)
    (ec : List ℚ → List ℚ → List ℚ → List (List ℚ) → List ℚ → List ℚ → Nat)
    (x g c : List ℚ) (gc : List (List ℚ)) (lt ut : List ℚ) :
    (withUpdateCode env ec).update x g c gc lt ut
      = (ec x g c gc lt ut, (env.update x g c gc lt ut).2) := rfl

theorem withUpdateCode_evalObjCon (env : Env)
    (ec : List ℚ → List ℚ → List ℚ → List (List ℚ) → List ℚ → List ℚ → Nat) :
    (withUpdateCode env ec).evalObjCon = env.evalObjCon := rfl

theorem withUpdateCode_evalObjConGrad (env : Env)
    (ec : List ℚ → List ℚ → List ℚ → List (List ℚ) → List ℚ → List ℚ → Nat) :
    (withUpdateCode env ec).evalObjConGrad = env.evalObjConGrad := rfl

theorem withUpdateCode_kkt (env : Env)
    (ec : List ℚ → List ℚ → List ℚ → List (List ℚ) → List ℚ → List ℚ → Nat) :
    (withUpdateCode env ec).kkt = env.kkt := rfl

theorem withUpdateCode_mlFail (env : Env)
    (ec : List ℚ → List ℚ → List ℚ → List (List ℚ) → List ℚ → List ℚ → Nat) :
    (withUpdateCode env ec).mlFail = env.mlFail := rfl

theorem withUpdateCode_normFail (env : Env)
    (ec : List ℚ → List ℚ → List ℚ → List (List ℚ) → List ℚ → List ℚ → Nat) :
    (withUpdateCode env ec).normFail = env.normFail := rfl

theorem withUpdateCode_initX (env : Env)
    (ec : List ℚ → List ℚ → List ℚ → List (List ℚ) → List ℚ → List ℚ → Nat) :
    (withUpdateCode env ec).initX = env.initX := rfl

theorem withUpdateCode_initLb (env : Env)
    (ec : List ℚ → List ℚ → List ℚ → List (List ℚ) → List ℚ → List ℚ → Nat) :
    (withUpdateCode env ec).initLb = env.initLb := rfl

theorem withUpdateCode_initUb (env : Env)
    (ec : List ℚ → List ℚ → List ℚ → List (List ℚ) → List ℚ → List ℚ → Nat) :
    (withUpdateCode env ec).initUb = env.initUb := rfl

theorem optLoop_update_code (env : Env)
    (ec : List ℚ → List ℚ → List ℚ → List (List ℚ) → List ℚ → List ℚ → Nat) :
    ∀ (r : Nat) (s : Bufs) (lbt ubt : List ℚ) (iter : Nat),
      optLoop (withUpdateCode env ec) r s lbt ubt iter = optLoop env r s lbt ubt iter := by
  intro r
  induction r with
  | zero => intro s lbt ubt iter; rfl
  | succ r ih =>
    intro s lbt ubt iter
    simp only [optLoop, withUpdateCode_update, withUpdateCode_evalObjCon,
      withUpdateCode_evalObjConGrad, withUpdateCode_kkt, withUpdateCode_mlFail,
      withUpdateCode_normFail]
    split
    · split
      · rw [ih]
      · rfl
    · rfl

theorem optLoop_extra_buffers_succ (env : Env) (r : Nat)
    (x lb ub g g' cons cons' : List ℚ) (gcon gcon' : List (List ℚ))
    (lbt ubt : List ℚ) (iter : Nat) :
    optLoop env (r + 1) ⟨x, lb, ub, g, cons, gcon⟩ lbt ubt iter
      = optLoop env (r + 1) ⟨x, lb, ub, g', cons', gcon'⟩ lbt ubt iter := rfl

theorem optimize_log (env : Env) (s0 : Bufs) (niter : Nat) :
    (optimize env s0 niter).log
      = (optLoop env niter ⟨env.initX, env.initLb, env.initUb, s0.g, s0.cons, s0.gcon⟩
          env.initLb env.initUb 0).log := by
  simp only [optimize]
  split <;> rfl

theorem optLoop_log_shape (env : Env) (hml : ∀ i, env.mlFail i = 0)
    (hnf : ∀ i, env.normFail i = 0) :
    ∀ (r k : Nat) (sg scons : List ℚ) (sgcon : List (List ℚ)) (lbt ubt : List ℚ),
      (optLoop env r ⟨xSeq env k, env.initLb, env.initUb, sg, scons, sgcon⟩ lbt ubt k).log
        = (List.range' k r).flatMap
            (fun j => (if j % 10 = 0 then [LogLine.header] else []) ++ [recordAt env j]) := by
  intro r
  induction r with
  | zero => intro k sg scons sgcon lbt ubt; rfl
  | succ r ih =>
    intro k sg scons sgcon lbt ubt
    rw [List.range'_succ, List.flatMap_cons]
    simp only [optLoop, hml k, hnf k, if_true]
    have hx : (env.update (xSeq env k) (env.evalObjConGrad (xSeq env k)).1
        (env.evalObjCon (xSeq env k)).2 (env.evalObjConGrad (xSeq env k)).2
        (setOuterMovelimit env.initLb env.initUb (xSeq env k) movelim).1
        (setOuterMovelimit env.initLb env.initUb (xSeq env k) movelim).2).2
        = xSeq env (k + 1) := rfl
    rw [hx, ih (k + 1)]
    rfl

theorem flatMap_blocks_filter (env : Env) :
    ∀ l : List Nat,
      ((l.flatMap (fun j => (if j % 10 = 0 then [LogLine.header] else [])
          ++ [recordAt env j])).filter isRecordLine)
        = l.map (recordAt env) := by
  intro l
  induction l with
  | nil => rfl
  | cons j js ih =>
    rw [List.flatMap_cons, List.filter_append, ih, List.filter_append]
    have h1 : (if j % 10 = 0 then [LogLine.header] else []).filter isRecordLine = [] := by
      split <;> rfl
    rw [h1, List.nil_append, List.map_cons]
    rfl

theorem optimize_records (env : Env) (s0 : Bufs) (niter : Nat)
    (hml : ∀ i, env.mlFail i = 0) (hnf : ∀ i, env.normFail i = 0) :
    (optimize env s0 niter).log.filter isRecordLine
      = (List.range niter).map (recordAt env) := by
  rw [optimize_log, List.range_eq_range',
    show env.initX = xSeq env 0 from rfl,
    optLoop_log_shape env hml hnf niter 0 s0.g s0.cons s0.gcon env.initLb env.initUb]
  exact flatMap_blocks_filter env _

/-! ## The claims -/

/-- Claim C1 (confirmed): bind(comm, global size, local size, buffer) creates a
distributed vector whose local storage is exactly the first local size elements
of the buffer, with no allocation of separate storage and no copy: the world is
returned unchanged, the vector's storage base is the buffer's base with the
given local size, a read through the vector's local-storage accessor agrees
with a read of the backing buffer, and a value written through either side is
read back through the other at the same local index. -/
theorem C1_bind_aliasing (w : World) (gsize lsize data i : Nat) (q : ℚ)
    (hi : i < lsize) :
    (bind_petsc_vec_to_array w gsize lsize data).2 = w ∧
    (bind_petsc_vec_to_array w gsize lsize data).1.arr = data ∧
    (bind_petsc_vec_to_array w gsize lsize data).1.lsize = lsize ∧
    (bind_petsc_vec_to_array w gsize lsize data).1.gsize = gsize ∧
    vecGetLocal w (bind_petsc_vec_to_array w gsize lsize data).1 i = bufRead w data i ∧
    vecGetLocal (bufWrite w data i q) (bind_petsc_vec_to_array w gsize lsize data).1 i = q ∧
    bufRead (vecSetLocal w (bind_petsc_vec_to_array w gsize lsize data).1 i q) data i = q := by
  refine ⟨rfl, rfl, rfl, rfl, rfl, ?_, ?_⟩ <;>
    simp [bind_petsc_vec_to_array, vecGetLocal, vecSetLocal, bufRead, bufWrite]

/-- Witness for C1 at a concrete world, sizes 7 and 3, buffer base 10, local
index 1, sentinel value 5. -/
theorem C1_bind_aliasing_witness :
    1 < 3 ∧
    ((bind_petsc_vec_to_array ⟨fun _ => 0, 100⟩ 7 3 10).2 = ⟨fun _ => 0, 100⟩ ∧
     (bind_petsc_vec_to_array ⟨fun _ => 0, 100⟩ 7 3 10).1.arr = 10 ∧
     (bind_petsc_vec_to_array ⟨fun _ => 0, 100⟩ 7 3 10).1.lsize = 3 ∧
     (bind_petsc_vec_to_array ⟨fun _ => 0, 100⟩ 7 3 10).1.gsize = 7 ∧
     vecGetLocal ⟨fun _ => 0, 100⟩ (bind_petsc_vec_to_array ⟨fun _ => 0, 100⟩ 7 3 10).1 1
       = bufRead ⟨fun _ => 0, 100⟩ 10 1 ∧
     vecGetLocal (bufWrite ⟨fun _ => 0, 100⟩ 10 1 5)
       (bind_petsc_vec_to_array ⟨fun _ => 0, 100⟩ 7 3 10).1 1 = 5 ∧
     bufRead (vecSetLocal ⟨fun _ => 0, 100⟩
       (bind_petsc_vec_to_array ⟨fun _ => 0, 100⟩ 7 3 10).1 1 5) 10 1 = 5) :=
  ⟨by decide, C1_bind_aliasing ⟨fun _ => 0, 100⟩ 7 3 10 1 5 (by decide)⟩

/-- Claim C2 (confirmed): the maximum constraint violation computed at
optimizer.cpp lines 152-159 equals the maximum over constraints of
max(constraint value, 0), is never negative, equals 0 iff every constraint
value is at most 0, and on the buffer [-1, 3/10, 0] yields 3/10; the infeas
column of every iteration's data record is exactly this function of that
iteration's constraint buffer. -/
theorem C2_max_constraint_violation :
    (∀ cons : List ℚ,
      computeInfeas cons = (cons.map (fun c => max c 0)).foldl max 0 ∧
      0 ≤ computeInfeas cons ∧
      (computeInfeas cons = 0 ↔ ∀ c ∈ cons, c ≤ 0)) ∧
    (∀ (env : Env) (k : Nat), infeasOf (recordAt env k) = computeInfeas (consAt env k)) ∧
    computeInfeas [-1, 3 / 10, 0] = 3 / 10 := by
  refine ⟨fun cons => ⟨?_, ?_, ?_⟩, fun env k => rfl, by norm_num [computeInfeas]⟩
  · exact (computeInfeas_eq_foldl_max cons).trans (foldl_max_map_nonneg cons 0 le_rfl)
  · rw [computeInfeas_eq_foldl_max]
    exact le_foldl_max cons 0
  · constructor
    · intro h c hc
      have hle := mem_le_foldl_max cons 0 c hc
      rw [← computeInfeas_eq_foldl_max, h] at hle
      exact hle
    · intro h
      rw [computeInfeas_eq_foldl_max]
      exact foldl_max_nonpos cons h

/-- Claim C3 counterexample: with a problem whose initial design is [0] and a
design buffer holding [5], optimize(0) makes a Problem Evaluator call
(getVarsAndBounds) and overwrites the design buffer, against the claim that
optimize(0) performs no evaluator calls and leaves x unmodified. -/
theorem C3_counterexample :
    (optimize envC s0C 0).events.filter isEvaluatorCall ≠ [] ∧
    (optimize envC s0C 0).bufs.x ≠ s0C.x := by
  decide

/-- Claim C3 (corrected): optimize(0) makes exactly one data-filling Problem
Evaluator call (getVarsAndBounds; the pure metadata getters of optimizer.cpp
lines 96-99 aside), which overwrites x, lb, ub with the problem's initial values;
it allocates and releases the temporary bound vectors and constructs the
solver, but performs no evalObjCon, evalObjConGrad, solver update or residual
call, writes no log output, and returns success with x holding the problem's
initial design (which the loop body never touched). -/
theorem C3_optimize_zero_amended (env : Env) (s0 : Bufs) :
    optimize env s0 0 =
      ⟨0, ⟨env.initX, env.initLb, env.initUb, s0.g, s0.cons, s0.gcon⟩, [],
        [Event.callGetVarsAndBounds, Event.allocTemp, Event.allocTemp,
         Event.constructMMA env.initX, Event.freeTemp, Event.freeTemp]⟩ := rfl

/-- Claim C4 counterexample: with a solver update that reports failure code 42
on every call, optimize(2) still returns success code 0, logs a data record for
both iterations, and calls KKTresidual after the failed update: the failure is
neither fatal to the call nor propagated, and the loop continues. -/
theorem C4_counterexample :
    (optimize envU s0C 2).code = 0 ∧
    ((optimize envU s0C 2).log.filter isRecordLine).length = 2 ∧
    Event.callKKT [1] [0] ∈ (optimize envU s0C 2).events := by
  decide

/-- Claim C4 (corrected): optimize discards the error status of the solver
update step (the call at optimizer.cpp line 141 is not wrapped in PetscCall):
the entire outcome of optimize, its returned code, final buffers, log, and call
sequence, is unchanged when the update's error status is replaced by any other
function of the same arguments, so a failing update is neither detected nor
propagated and the loop is not stopped. -/
theorem C4_update_code_invariant (env : Env)
    (ec : List ℚ → List ℚ → List ℚ → List (List ℚ) → List ℚ → List ℚ → Nat)
    (s0 : Bufs) (niter : Nat) :
    optimize (withUpdateCode env ec) s0 niter = optimize env s0 niter := by
  simp only [optimize, optLoop_update_code env ec, withUpdateCode_initX,
    withUpdateCode_initLb, withUpdateCode_initUb]

/-- Claim C5 counterexample: when SetOuterMovelimit fails with code 7 on the
first iteration, optimize returns that code after allocating the two temporary
bound vectors and without releasing either: they are leaked on this early error
exit. -/
theorem C5_counterexample :
    (optimize envF s0C 1).code = 7 ∧
    (optimize envF s0C 1).events.countP isAllocTemp = 2 ∧
    (optimize envF s0C 1).events.countP isFreeTemp = 0 := by
  decide

/-- Claim C5 (corrected): the two temporary bound vectors allocated at the
start of every optimize call are released exactly when the call completes
normally (returned code 0); on every early error exit the call returns without
releasing them (the VecDestroy calls at optimizer.cpp lines 173-174 sit after
the loop and are skipped by every PetscCall early return). -/
theorem C5_temp_release_amended (env : Env) (s0 : Bufs) (niter : Nat) :
    (optimize env s0 niter).events.countP isAllocTemp = 2 ∧
    (optimize env s0 niter).events.countP isFreeTemp
      = (if (optimize env s0 niter).code = 0 then 2 else 0) := by
  have h := optLoop_no_temp_events env niter
    ⟨env.initX, env.initLb, env.initUb, s0.g, s0.cons, s0.gcon⟩ env.initLb env.initUb 0
  by_cases hc : (optLoop env niter
      ⟨env.initX, env.initLb, env.initUb, s0.g, s0.cons, s0.gcon⟩
      env.initLb env.initUb 0).code = 0
  · simp [optimize, hc, List.countP_append, List.countP_cons, isAllocTemp, isFreeTemp,
      h.1, h.2]
  · simp [optimize, hc, List.countP_append, List.countP_cons, isAllocTemp, isFreeTemp,
      h.1, h.2]

/-- Claim C6 counterexample: with lb = ub = [0] but the current iterate x = [1]
outside the permanent box, the move-limit formula gives lb_temp[0] = 1 and
ub_temp[0] = 0: the temporary box does not collapse to the single point 0, so
the edge-case part of the claim fails as stated. -/
theorem C6_counterexample :
    (setOuterMovelimit [0] [0] [1] (1 / 5)).1.getD 0 0 = 1 ∧
    (setOuterMovelimit [0] [0] [1] (1 / 5)).2.getD 0 0 = 0 ∧
    ¬ ((setOuterMovelimit [0] [0] [1] (1 / 5)).1.getD 0 0 = 0 ∧
       (setOuterMovelimit [0] [0] [1] (1 / 5)).2.getD 0 0 = 0) := by
  have hlb : (setOuterMovelimit [0] [0] [1] (1 / 5)).1.getD 0 0 = 1 := by
    norm_num [setOuterMovelimit, zipWith3, movelimLB]
  have hub : (setOuterMovelimit [0] [0] [1] (1 / 5)).2.getD 0 0 = 0 := by
    norm_num [setOuterMovelimit, zipWith3, movelimUB]
  exact ⟨hlb, hub, fun hc => one_ne_zero (hlb.symm.trans hc.1)⟩

/-- Claim C6 (corrected): for every local variable the temporary box satisfies
lb_temp[i] = max(lb[i], x[i] - f*(ub[i]-lb[i])) and ub_temp[i] = min(ub[i],
x[i] + f*(ub[i]-lb[i])) (with f hard-coded to 0.2), hence lb <= lb_temp and
ub_temp <= ub everywhere; and when ub[i] = lb[i] the box collapses to that
single point provided the current iterate lies within the permanent bounds at
i. -/
theorem C6_move_limit_box_amended (lb ub x : List ℚ) (f : ℚ) (i : Nat)
    (hi : i < lb.length) (h1 : lb.length = ub.length) (h2 : ub.length = x.length) :
    movelim = 1 / 5 ∧
    (setOuterMovelimit lb ub x f).1.getD i 0
      = max (lb.getD i 0) (x.getD i 0 - f * (ub.getD i 0 - lb.getD i 0)) ∧
    (setOuterMovelimit lb ub x f).2.getD i 0
      = min (ub.getD i 0) (x.getD i 0 + f * (ub.getD i 0 - lb.getD i 0)) ∧
    lb.getD i 0 ≤ (setOuterMovelimit lb ub x f).1.getD i 0 ∧
    (setOuterMovelimit lb ub x f).2.getD i 0 ≤ ub.getD i 0 ∧
    (ub.getD i 0 = lb.getD i 0 → lb.getD i 0 ≤ x.getD i 0 → x.getD i 0 ≤ ub.getD i 0 →
      (setOuterMovelimit lb ub x f).1.getD i 0 = lb.getD i 0 ∧
      (setOuterMovelimit lb ub x f).2.getD i 0 = lb.getD i 0) := by
  have e1 : (setOuterMovelimit lb ub x f).1.getD i 0
      = max (lb.getD i 0) (x.getD i 0 - f * (ub.getD i 0 - lb.getD i 0)) :=
    zipWith3_getD (fun l u xi => movelimLB l u xi f) lb ub x i hi h1 h2
  have e2 : (setOuterMovelimit lb ub x f).2.getD i 0
      = min (ub.getD i 0) (x.getD i 0 + f * (ub.getD i 0 - lb.getD i 0)) :=
    zipWith3_getD (fun l u xi => movelimUB l u xi f) lb ub x i hi h1 h2
  refine ⟨rfl, e1, e2, ?_, ?_, ?_⟩
  · rw [e1]
    exact le_max_left _ _
  · rw [e2]
    exact min_le_left _ _
  · intro hu hlx hxu
    have hx : x.getD i 0 = lb.getD i 0 := le_antisymm (hxu.trans_eq hu) hlx
    rw [e1, e2, hu, hx]
    constructor <;> simp

/-- Witness for C6 at lb = [0, 1], ub = [2, 1], x = [1, 1], f = 1/5, i = 1: a
variable with coincident bounds and an iterate inside the box, so the collapse
clause fires. -/
theorem C6_move_limit_box_witness :
    (1 < [(0 : ℚ), 1].length ∧ [(0 : ℚ), 1].length = [(2 : ℚ), 1].length ∧
      [(2 : ℚ), 1].length = [(1 : ℚ), 1].length) ∧
    (movelim = 1 / 5 ∧
     (setOuterMovelimit [0, 1] [2, 1] [1, 1] (1 / 5)).1.getD 1 0
       = max ([(0 : ℚ), 1].getD 1 0)
           ([(1 : ℚ), 1].getD 1 0 - 1 / 5 * ([(2 : ℚ), 1].getD 1 0 - [(0 : ℚ), 1].getD 1 0)) ∧
     (setOuterMovelimit [0, 1] [2, 1] [1, 1] (1 / 5)).2.getD 1 0
       = min ([(2 : ℚ), 1].getD 1 0)
           ([(1 : ℚ), 1].getD 1 0 + 1 / 5 * ([(2 : ℚ), 1].getD 1 0 - [(0 : ℚ), 1].getD 1 0)) ∧
     [(0 : ℚ), 1].getD 1 0 ≤ (setOuterMovelimit [0, 1] [2, 1] [1, 1] (1 / 5)).1.getD 1 0 ∧
     (setOuterMovelimit [0, 1] [2, 1] [1, 1] (1 / 5)).2.getD 1 0 ≤ [(2 : ℚ), 1].getD 1 0 ∧
     ([(2 : ℚ), 1].getD 1 0 = [(0 : ℚ), 1].getD 1 0 →
       [(0 : ℚ), 1].getD 1 0 ≤ [(1 : ℚ), 1].getD 1 0 →
       [(1 : ℚ), 1].getD 1 0 ≤ [(2 : ℚ), 1].getD 1 0 →
       (setOuterMovelimit [0, 1] [2, 1] [1, 1] (1 / 5)).1.getD 1 0 = [(0 : ℚ), 1].getD 1 0 ∧
       (setOuterMovelimit [0, 1] [2, 1] [1, 1] (1 / 5)).2.getD 1 0 = [(0 : ℚ), 1].getD 1 0)) :=
  ⟨⟨by decide, by decide, by decide⟩,
   C6_move_limit_box_amended [0, 1] [2, 1] [1, 1] (1 / 5) 1 (by decide) (by decide) (by decide)⟩

/-- Claim C7 counterexample: the first optimize call leaves the design [1] in
the aliased buffer, yet the second call evaluates the objective at the
problem's initial design [0] and never at [1]: the second call does not
continue from the design left by the first. -/
theorem C7_counterexample :
    (optimize envC s0C 1).bufs.x = [1] ∧
    Event.callEvalObjCon [0] ∈ (optimize envC (optimize envC s0C 1).bufs 1).events ∧
    Event.callEvalObjCon [1] ∉ (optimize envC (optimize envC s0C 1).bufs 1).events := by
  decide

/-- Claim C7 (corrected): every optimize call starts by re-initializing x, lb,
ub from the problem's getVarsAndBounds (optimizer.cpp line 105), so
optimize(N) followed by optimize(M) does not continue from the first call's
final design: the second call's returned code, final design, log and call
sequence are identical to running optimize(M) on the driver's original
buffers.  (Between the calls the aliased buffer does still hold the first
call's final design; the second call overwrites it.) -/
theorem C7_design_reinitialized_amended (env : Env) (s0 : Bufs) (N M : Nat) :
    designView (optimize env (optimize env s0 N).bufs M)
      = designView (optimize env s0 M) := by
  cases M with
  | zero => rfl
  | succ m =>
    generalize (optimize env s0 N).bufs = b
    simp only [optimize]
    rw [optLoop_extra_buffers_succ env m env.initX env.initLb env.initUb
      b.g s0.g b.cons s0.cons b.gcon s0.gcon env.initLb env.initUb 0]

/-- Claim C8 counterexample: the data-record fields are printed with the e
conversion at precision 10 (format 20.10e, optimizer.cpp line 166), which per
the C standard prints one digit before the decimal point and 10 after: 11
significant digits, not 10 as claimed. -/
theorem C8_counterexample :
    recordFmt.prec = 10 ∧ sigDigitsE recordFmt.prec = 11 ∧
    sigDigitsE recordFmt.prec ≠ 10 := by
  decide

/-- Claim C8 (corrected): in a failure-free run the log consists, iteration by
iteration, of a header line exactly when the iteration index is divisible by
10 (0, 10, 20, ...) followed by exactly one data record, so a 3-iteration run
yields exactly one header followed by 3 records; each numeric field uses the e
conversion at width 20 with precision 10, which is scientific notation with 11
significant digits (one before the decimal point and 10 after), not 10. -/
theorem C8_log_structure_amended (env : Env) (s0 : Bufs) (niter : Nat)
    (hml : ∀ i, env.mlFail i = 0) (hnf : ∀ i, env.normFail i = 0) :
    (optimize env s0 niter).log
      = (List.range niter).flatMap
          (fun j => (if j % 10 = 0 then [LogLine.header] else []) ++ [recordAt env j]) ∧
    (optimize env s0 3).log
      = [LogLine.header, recordAt env 0, recordAt env 1, recordAt env 2] ∧
    recordFmt = ⟨20, 10⟩ ∧
    sigDigitsE recordFmt.prec = 11 := by
  refine ⟨?_, ?_, rfl, rfl⟩
  · rw [optimize_log, List.range_eq_range', show env.initX = xSeq env 0 from rfl,
      optLoop_log_shape env hml hnf niter 0 s0.g s0.cons s0.gcon env.initLb env.initUb]
  · rw [optimize_log, show env.initX = xSeq env 0 from rfl,
      optLoop_log_shape env hml hnf 3 0 s0.g s0.cons s0.gcon env.initLb env.initUb]
    rfl

/-- Witness for C8: the failure-free concrete run of 3 iterations produces one
header followed by the three iteration records. -/
theorem C8_log_structure_witness :
    envC.mlFail 0 = 0 ∧ envC.normFail 0 = 0 ∧
    (optimize envC s0C 3).log
      = [LogLine.header, recordAt envC 0, recordAt envC 1, recordAt envC 2] :=
  ⟨rfl, rfl, (C8_log_structure_amended envC s0C 3 (fun _ => rfl) (fun _ => rfl)).2.1⟩

/-- Claim C9 counterexample: constructing the Optimizer with a failed fopen
(NULL file handle) succeeds and stores the null handle; no IOError is raised,
so a failed open is silently ignored at construction. -/
theorem C9_counterexample :
    optimizerCtor none = Except.ok ⟨none⟩ := rfl

/-- Claim C9 (corrected): the log file is opened exactly once, at construction,
but the result of fopen is stored without being checked (optimizer.cpp line
39): construction always succeeds, even when the open failed, and no error is
surfaced at construction time. -/
theorem C9_ctor_ignores_fopen_failure_amended (r : Option Unit) :
    optimizerCtor r = Except.ok ⟨r⟩ := rfl

/-- Claim C10 (confirmed): within each iteration k of a failure-free run, the
constraint values used for the KKT residual and for the logged maximum
violation are those evaluated by evalObjCon at the pre-update iterate: the
iterate at position k+1 is the solver update of the one at k, and the k-th
logged record carries the objective and infeasibility of the pre-update
iterate (its infeas column is computeInfeas of the constraints evaluated at
iterate k, not re-evaluated), while its KKT pair is computed at the post-update
iterate with those same stale constraints, and its l1 column is the norm of
the post-update iterate. -/
theorem C10_stale_cons_in_diagnostics (env : Env) (s0 : Bufs) (niter k : Nat)
    (hk : k < niter) (hml : ∀ i, env.mlFail i = 0) (hnf : ∀ i, env.normFail i = 0) :
    xSeq env (k + 1)
      = (env.update (xSeq env k) (gradAt env k) (consAt env k) (jacAt env k)
          (mlAt env k).1 (mlAt env k).2).2 ∧
    ((optimize env s0 niter).log.filter isRecordLine)[k]?
      = some (LogLine.record k (objAt env k) (kktAt env k).1 (kktAt env k).2
          (l1norm (xSeq env (k + 1))) (computeInfeas (consAt env k))) := by
  refine ⟨rfl, ?_⟩
  rw [optimize_records env s0 niter hml hnf, List.getElem?_map, List.getElem?_range hk]
  rfl

/-- Witness for C10 at the concrete run, iteration 1 of 2. -/
theorem C10_stale_cons_witness :
    1 < 2 ∧
    ((optimize envC s0C 2).log.filter isRecordLine)[1]? = some (recordAt envC 1) :=
  ⟨by decide,
   (C10_stale_cons_in_diagnostics envC s0C 2 1 (by decide) (fun _ => rfl) (fun _ => rfl)).2⟩

end Mma4py
